import Mathlib

/-!
Verification of the FastAPI ML GitOps service (src/kubernetes-resources/app.py).

The service is stateless: every handler is a pure function of the process-wide
configuration (the `APP_VERSION` string read from the environment at start-up)
plus, for `predict`, the two pseudo-random draws made during the call.  We
embed the handlers as Lean functions of those inputs and prove the spec's
claims about their responses.
-/

namespace App

/-- Model of Python `os.getenv(name, default)`.  The environment binding is an
`Option String`: `none` when the variable is absent.  A set variable returns
its value — even when that value is the empty string; the default is used only
when the variable is absent. -/
def getenv (env : Option String) (dflt : String) : String :=
  env.getD dflt

/-- `APP_VERSION = os.getenv("APP_VERSION", "v1")` (app.py, line 14), as a
function of the environment binding present at process start. -/
def APP_VERSION (env : Option String) : String :=
  getenv env "v1"

/-- A JSON scalar value appearing in the handlers' responses: every field the
service emits is either a string or a number. -/
inductive JVal where
  | str : String → JVal
  | num : ℚ → JVal
deriving DecidableEq, Repr

/-- A flat JSON object, as returned by every handler: an ordered list of
key–value pairs. -/
abbrev JObj := List (String × JVal)

/-- Field access in a JSON object (first matching key). -/
def lookupField (o : JObj) (k : String) : Option JVal :=
  (o.find? (fun kv => kv.1 == k)).map (fun kv => kv.2)

/-- Body built by the `root` handler (app.py, lines 22–25):
`message` is the f-string `f"Hello from FastAPI GitOps {APP_VERSION}!"`. -/
def rootBody (v : String) : JObj :=
  [("message", JVal.str ("Hello from FastAPI GitOps " ++ v ++ "!")),
   ("status", JVal.str "running")]

/-- Body built by the `version` handler (app.py, lines 27–30). -/
def versionBody (v : String) : JObj :=
  [("version", JVal.str v), ("app", JVal.str "FastAPI ML GitOps")]

/-- Body built by the `health` handler (app.py, lines 32–35). -/
def healthBody (v : String) : JObj :=
  [("status", JVal.str "healthy"), ("version", JVal.str v)]

/-- Round half to even to the nearest integer — the rounding mode of Python's
built-in `round`. -/
def roundHalfEven (x : ℚ) : ℤ :=
  if x - ⌊x⌋ < 1/2 then ⌊x⌋
  else if 1/2 < x - ⌊x⌋ then ⌊x⌋ + 1
  else if ⌊x⌋ % 2 = 0 then ⌊x⌋ else ⌊x⌋ + 1

/-- Python `round(x, 2)`: round to two decimal places, half to even. -/
def round2 (x : ℚ) : ℚ :=
  (roundHalfEven (x * 100) : ℚ) / 100

/-- `predictions = ["positive", "negative", "neutral"]` (app.py, line 42). -/
def predictions : List String :=
  ["positive", "negative", "neutral"]

/-- The two pseudo-random draws made during one call of the `predict` handler:
`choice` is the index drawn by `random.choice(predictions)` and `u` is the
value returned by `random.uniform(0.7, 0.99)` (which lies in `[0.7, 0.99]`). -/
structure RandDraws where
  choice : Fin 3
  u : ℚ
deriving DecidableEq

/-- `prediction = random.choice(predictions)` (app.py, line 43). -/
def predictLabel (r : RandDraws) : String :=
  predictions.get r.choice

/-- `confidence = round(random.uniform(0.7, 0.99), 2)` (app.py, line 44). -/
def predictConfidence (r : RandDraws) : ℚ :=
  round2 r.u

/-- The `result` dict built by the `predict` handler (app.py, lines 46–51);
the timestamp is the fixed literal in the source, not a clock reading. -/
def predictBody (r : RandDraws) : JObj :=
  [("prediction", JVal.str (predictLabel r)),
   ("confidence", JVal.num (predictConfidence r)),
   ("model_version", JVal.str "1.0.0"),
   ("timestamp", JVal.str "2025-01-27T12:00:00Z")]

/-- HTTP methods relevant to the routing behaviour. -/
inductive Method where
  | GET | POST | PUT | DELETE
deriving DecidableEq

/-- The four registered paths — the `@app.get` route declarations of app.py,
all of them GET-only. -/
def routes : List String :=
  ["/", "/version", "/health", "/predict"]

/-- An HTTP response: status code and JSON body. -/
structure Response where
  status : ℕ
  body : JObj
deriving DecidableEq

/-- The handler body selected for a registered path. -/
def handlerBody (v : String) (r : RandDraws) (p : String) : JObj :=
  if p = "/" then rootBody v
  else if p = "/version" then versionBody v
  else if p = "/health" then healthBody v
  else predictBody r

/-- Modelled from the spec: the request dispatcher is FastAPI library code and
is not part of src/ — only the route declarations are.  Per the spec, a GET on
a registered path returns the handler's body with HTTP 200; a path matching no
route fails with HTTP 404 and a non-GET method on a registered path fails with
HTTP 405, each carrying a generic JSON error envelope with a `detail` field. -/
def dispatch (v : String) (r : RandDraws) (m : Method) (p : String) : Response :=
  if p ∈ routes then
    if m = Method.GET then ⟨200, handlerBody v r p⟩
    else ⟨405, [("detail", JVal.str "Method Not Allowed")]⟩
  else ⟨404, [("detail", JVal.str "Not Found")]⟩

/-- Whether a JSON body carries at least a `detail` or `error` field. -/
def hasErrField (o : JObj) : Bool :=
  o.any (fun kv => kv.1 == "detail" || kv.1 == "error")

/-- Number of digits after the decimal point in the shortest decimal rendering
of a rational, exact on multiples of `1/100` (every confidence the service can
emit) and capped at 2 beyond them. -/
def fracDigits (q : ℚ) : ℕ :=
  if (⌊q⌋ : ℚ) = q then 0 else if (⌊q * 10⌋ : ℚ) = q * 10 then 1 else 2

/-- Shape check for a basic ISO-8601 UTC instant `YYYY-MM-DDTHH:MM:SSZ`. -/
def isBasicIso8601 (s : String) : Bool :=
  match s.toList with
  | [y1, y2, y3, y4, '-', m1, m2, '-', d1, d2, 'T',
     h1, h2, ':', n1, n2, ':', s1, s2, 'Z'] =>
      [y1, y2, y3, y4, m1, m2, d1, d2, h1, h2, n1, n2, s1, s2].all Char.isDigit
  | _ => false

/-- Rounding half to even never goes below an integer lower bound. -/
lemma le_roundHalfEven_of_le (y : ℚ) (n : ℤ) (h : (n : ℚ) ≤ y) :
    n ≤ roundHalfEven y := by
  have hfl : n ≤ ⌊y⌋ := Int.le_floor.mpr h
  unfold roundHalfEven
  split_ifs <;> omega

/-- Rounding half to even never goes above an integer upper bound. -/
lemma roundHalfEven_le_of_le (y : ℚ) (n : ℤ) (h : y ≤ (n : ℚ)) :
    roundHalfEven y ≤ n := by
  have hfl : ⌊y⌋ ≤ n := by
    have h1 : ⌊y⌋ ≤ ⌊(n : ℚ)⌋ := Int.floor_le_floor h
    simpa using h1
  have hfr : (⌊y⌋ : ℚ) ≤ y := Int.floor_le y
  unfold roundHalfEven
  split_ifs with h1 h2 h3
  · exact hfl
  · have hq : (⌊y⌋ : ℚ) + 1/2 < y := by linarith
    have hlt : (⌊y⌋ : ℚ) < n := by linarith
    have : ⌊y⌋ < n := by exact_mod_cast hlt
    omega
  · exact hfl
  · have hq : (⌊y⌋ : ℚ) + 1/2 ≤ y := by linarith
    have hlt : (⌊y⌋ : ℚ) < n := by linarith
    have : ⌊y⌋ < n := by exact_mod_cast hlt
    omega

/-- Rounding to two decimal places maps `[0.70, 0.99]` into itself. -/
lemma round2_bounds (x : ℚ) (h1 : 7/10 ≤ x) (h2 : x ≤ 99/100) :
    7/10 ≤ round2 x ∧ round2 x ≤ 99/100 := by
  have hl : (70 : ℤ) ≤ roundHalfEven (x * 100) :=
    le_roundHalfEven_of_le (x * 100) 70 (by push_cast; linarith)
  have hu : roundHalfEven (x * 100) ≤ (99 : ℤ) :=
    roundHalfEven_le_of_le (x * 100) 99 (by push_cast; linarith)
  have hl' : (70 : ℚ) ≤ (roundHalfEven (x * 100) : ℚ) := by exact_mod_cast hl
  have hu' : ((roundHalfEven (x * 100) : ℚ)) ≤ 99 := by exact_mod_cast hu
  unfold round2
  constructor <;> linarith

/-- Claim C1: every `GET /health` responds HTTP 200 with body exactly
`\x7b"status": "healthy", "version": v\x7d` where `v` is the configured
`APP_VERSION` — the environment value read at process start, or `"v1"` when
the variable is absent. -/
theorem health_response (env : Option String) (r : RandDraws) :
    (dispatch (APP_VERSION env) r Method.GET "/health").status = 200 ∧
    (dispatch (APP_VERSION env) r Method.GET "/health").body =
      [("status", JVal.str "healthy"), ("version", JVal.str (APP_VERSION env))] ∧
    APP_VERSION none = "v1" ∧ (∀ s : String, APP_VERSION (some s) = s) :=
  ⟨rfl, rfl, rfl, fun _ => rfl⟩

/-- Claim C2: every `GET /version` responds with a `version` field equal to
the `APP_VERSION` environment value when set and `"v1"` when unset, and an
`app` field equal to the constant `"FastAPI ML GitOps"`. -/
theorem version_response (env : Option String) (r : RandDraws) :
    (dispatch (APP_VERSION env) r Method.GET "/version").status = 200 ∧
    (dispatch (APP_VERSION env) r Method.GET "/version").body =
      [("version", JVal.str (APP_VERSION env)), ("app", JVal.str "FastAPI ML GitOps")] ∧
    (∀ s : String, APP_VERSION (some s) = s) ∧ APP_VERSION none = "v1" :=
  ⟨rfl, rfl, fun _ => rfl, rfl⟩

/-- Claim C3, counterexample: with `APP_VERSION` set to the empty string, the
configured version is the empty string, not the default `"v1"` —
`os.getenv` falls back to the default only when the variable is absent. -/
theorem app_version_empty_counterexample :
    APP_VERSION (some "") = "" ∧ APP_VERSION (some "") ≠ "v1" :=
  ⟨rfl, by decide⟩

/-- Claim C3, amended: the configured version is `"v1"` exactly when the
variable is absent; any set value — the empty string included — is kept
verbatim. -/
theorem app_version_default (s : String) :
    APP_VERSION none = "v1" ∧ APP_VERSION (some s) = s :=
  ⟨rfl, rfl⟩

/-- Claim C4: every predict call returns a label among the three fixed labels
and a confidence equal to the drawn value rounded to two decimal places,
lying in the closed interval `[0.70, 0.99]`. -/
theorem predict_invariants (r : RandDraws)
    (h1 : 7/10 ≤ r.u) (h2 : r.u ≤ 99/100) :
    predictLabel r ∈ ["positive", "negative", "neutral"] ∧
    7/10 ≤ predictConfidence r ∧ predictConfidence r ≤ 99/100 ∧
    predictConfidence r = round2 r.u := by
  refine ⟨?_, (round2_bounds r.u h1 h2).1, (round2_bounds r.u h1 h2).2, rfl⟩
  show predictions.get r.choice ∈ predictions
  exact List.get_mem predictions r.choice.1 r.choice.2

/-- Claim C4, witness at the concrete draw `(choice 0, u = 4/5)`. -/
theorem predict_invariants_witness :
    predictLabel ⟨0, 4/5⟩ ∈ ["positive", "negative", "neutral"] ∧
    7/10 ≤ predictConfidence ⟨0, 4/5⟩ ∧ predictConfidence ⟨0, 4/5⟩ ≤ 99/100 ∧
    predictConfidence ⟨0, 4/5⟩ = round2 (4/5) :=
  predict_invariants ⟨0, 4/5⟩ (by norm_num) (by norm_num)

/-- Claim C5, counterexample: the draw `u = 4/5 = 0.8` lies in
`[0.70, 0.99]`, yet the resulting confidence `round(0.8, 2) = 0.8`
serializes with one decimal digit, not two. -/
theorem confidence_not_always_two_digits :
    7/10 ≤ (4 : ℚ)/5 ∧ (4 : ℚ)/5 ≤ 99/100 ∧
    fracDigits (predictConfidence ⟨0, 4/5⟩) = 1 := by
  refine ⟨by norm_num, by norm_num, ?_⟩
  have hc : predictConfidence ⟨0, (4 : ℚ)/5⟩ = 4/5 := by
    show round2 ((4 : ℚ)/5) = 4/5
    unfold round2 roundHalfEven
    norm_num
  rw [hc]
  unfold fracDigits
  norm_num

/-- Claim C5, amended: the confidence is always an integer multiple of
`1/100` with numerator between 70 and 99, so its serialization has at most
two decimal digits (trailing zeros are dropped, so fewer can appear). -/
theorem confidence_at_most_two_digits (r : RandDraws)
    (h1 : 7/10 ≤ r.u) (h2 : r.u ≤ 99/100) :
    (∃ k : ℤ, 70 ≤ k ∧ k ≤ 99 ∧ predictConfidence r = (k : ℚ) / 100) ∧
    fracDigits (predictConfidence r) ≤ 2 := by
  refine ⟨⟨roundHalfEven (r.u * 100), ?_, ?_, rfl⟩, ?_⟩
  · exact le_roundHalfEven_of_le (r.u * 100) 70 (by push_cast; linarith)
  · exact roundHalfEven_le_of_le (r.u * 100) 99 (by push_cast; linarith)
  · unfold fracDigits
    split_ifs <;> omega

/-- Claim C5, amended, witness at the concrete draw `(choice 0, u = 4/5)`. -/
theorem confidence_at_most_two_digits_witness :
    (∃ k : ℤ, 70 ≤ k ∧ k ≤ 99 ∧ predictConfidence ⟨0, 4/5⟩ = (k : ℚ) / 100) ∧
    fracDigits (predictConfidence ⟨0, 4/5⟩) ≤ 2 :=
  confidence_at_most_two_digits ⟨0, 4/5⟩ (by norm_num) (by norm_num)

/-- Claim C6, counterexample: with the default version `"v1"`, the root body's
message is `"Hello from FastAPI GitOps v1!"` — the greeting omits `"ML"`, so
it is not `"Hello from FastAPI ML GitOps v1!"` as the claim states. -/
theorem root_greeting_counterexample :
    (dispatch (APP_VERSION none) ⟨0, 4/5⟩ Method.GET "/").body ≠
      [("message", JVal.str "Hello from FastAPI ML GitOps v1!"),
       ("status", JVal.str "running")] ∧
    lookupField (dispatch (APP_VERSION none) ⟨0, 4/5⟩ Method.GET "/").body "message" =
      some (JVal.str "Hello from FastAPI GitOps v1!") := by
  constructor
  · decide
  · rfl

/-- Claim C6, amended: every `GET /` responds HTTP 200 with body
`\x7b"message": "Hello from FastAPI GitOps <version>!", "status": "running"\x7d`,
where the greeting uses the literal `"FastAPI GitOps"` of the f-string rather
than the application-name constant `"FastAPI ML GitOps"`. -/
theorem root_response (env : Option String) (r : RandDraws) :
    (dispatch (APP_VERSION env) r Method.GET "/").status = 200 ∧
    (dispatch (APP_VERSION env) r Method.GET "/").body =
      [("message", JVal.str ("Hello from FastAPI GitOps " ++ APP_VERSION env ++ "!")),
       ("status", JVal.str "running")] :=
  ⟨rfl, rfl⟩

/-- Claim C7: a request whose path matches no registered route responds
HTTP 404, and a request on a registered path with a non-GET method responds
HTTP 405; in both cases the JSON body carries a `detail` or `error` field. -/
theorem dispatch_errors :
    (∀ (v : String) (r : RandDraws) (m : Method) (p : String), p ∉ routes →
      (dispatch v r m p).status = 404 ∧ hasErrField (dispatch v r m p).body = true) ∧
    (∀ (v : String) (r : RandDraws) (m : Method) (p : String),
      p ∈ routes → m ≠ Method.GET →
      (dispatch v r m p).status = 405 ∧ hasErrField (dispatch v r m p).body = true) := by
  constructor
  · intro v r m p hp
    simp [dispatch, hp, hasErrField]
  · intro v r m p hp hm
    simp [dispatch, hp, hm, hasErrField]

/-- Claim C7, witness: `GET /nonexistent` yields 404 and `POST /predict`
yields 405, each with a `detail` field in the body. -/
theorem dispatch_errors_witness :
    ((dispatch "v1" ⟨0, 4/5⟩ Method.GET "/nonexistent").status = 404 ∧
      hasErrField (dispatch "v1" ⟨0, 4/5⟩ Method.GET "/nonexistent").body = true) ∧
    ((dispatch "v1" ⟨0, 4/5⟩ Method.POST "/predict").status = 405 ∧
      hasErrField (dispatch "v1" ⟨0, 4/5⟩ Method.POST "/predict").body = true) :=
  ⟨dispatch_errors.1 "v1" ⟨0, 4/5⟩ Method.GET "/nonexistent" (by decide),
   dispatch_errors.2 "v1" ⟨0, 4/5⟩ Method.POST "/predict" (by decide) (by decide)⟩

/-- Claim C8: with unchanged configuration, any two calls to `/`, `/version`
or `/health` return identical responses — these handlers do not depend on the
per-call random draws, only on the configured version. -/
theorem static_handlers_deterministic (v : String) (r₁ r₂ : RandDraws) (p : String)
    (hp : p = "/" ∨ p = "/version" ∨ p = "/health") :
    dispatch v r₁ Method.GET p = dispatch v r₂ Method.GET p := by
  rcases hp with h | h | h <;> subst h <;> rfl

/-- Claim C8, witness: two `/health` calls with different random states agree. -/
theorem static_handlers_deterministic_witness :
    dispatch "v1" ⟨0, 7/10⟩ Method.GET "/health" =
      dispatch "v1" ⟨1, 9/10⟩ Method.GET "/health" :=
  static_handlers_deterministic "v1" ⟨0, 7/10⟩ ⟨1, 9/10⟩ "/health"
    (Or.inr (Or.inr rfl))

/-- Claim C9: the predict handler is a total function — every call responds
HTTP 200 with all four fields `prediction`, `confidence`, `model_version`,
`timestamp`, and `model_version` is the fixed string `"1.0.0"`. -/
theorem predict_total (v : String) (r : RandDraws) :
    (dispatch v r Method.GET "/predict").status = 200 ∧
    (dispatch v r Method.GET "/predict").body =
      [("prediction", JVal.str (predictLabel r)),
       ("confidence", JVal.num (predictConfidence r)),
       ("model_version", JVal.str "1.0.0"),
       ("timestamp", JVal.str "2025-01-27T12:00:00Z")] :=
  ⟨rfl, rfl⟩

/-- Claim C10: every predict call carries the same fixed timestamp literal
`"2025-01-27T12:00:00Z"`, independent of the random draws (and of any clock),
and that literal has the shape of a basic ISO-8601 UTC instant. -/
theorem predict_timestamp_fixed (r₁ r₂ : RandDraws) :
    lookupField (predictBody r₁) "timestamp" =
      some (JVal.str "2025-01-27T12:00:00Z") ∧
    lookupField (predictBody r₁) "timestamp" = lookupField (predictBody r₂) "timestamp" ∧
    isBasicIso8601 "2025-01-27T12:00:00Z" = true :=
  ⟨rfl, rfl, by decide⟩

end App
